import Mathlib

/-!
Verification of the NetFlow/IPFIX parsing and batching subsystem of
`unifi-monitor` (files `src/unifi_monitor/netflow/parser.py` and
`src/unifi_monitor/netflow/collector.py`).

Byte buffers are modelled as `List Nat` (one entry per octet), machine
integers as `Nat` with explicit `% 2 ^ w` where the source masks, and the
mutable Python dicts as association lists updated by explicit state passing.
The pieces of the third-party `netflow` library that `parser.py` calls
(`IPFIXHeader`, `IPFIXSet`, `netflow.parse_packet`) are not part of the
repository; they are modelled from the spec's bit-exact wire description
(spec section 6) and are marked `Modelled from the spec:` below.
-/

namespace UnifiMonitor

/-- Big-endian unsigned integer of a byte sequence, as `struct.unpack` with a
`!`-prefixed format produces for the given octets. -/
def beUint (bs : List Nat) : Nat :=
  bs.foldl (fun a b => a * 256 + b) 0

/-- The Python slice `data[off : off + len]`. -/
def slice (data : List Nat) (off len : Nat) : List Nat :=
  (data.drop off).take len

/-- Big-endian 16-bit read at an offset, `struct.unpack("!H", data[off:off+2])`. -/
def be2 (data : List Nat) (off : Nat) : Nat :=
  beUint (slice data off 2)

/-- A normalized flow dict as returned by `extract_flow_fields`: keys
`src_ip, dst_ip, src_port, dst_port, protocol, bytes, packets`. -/
structure FlowRec where
  src_ip : String
  dst_ip : String
  src_port : Nat
  dst_port : Nat
  protocol : Nat
  bytes : Nat
  packets : Nat
deriving Repr, DecidableEq

/-- The `int_to_ipv4` function of `parser.py`: `0` renders as `"0.0.0.0"`,
otherwise the value is masked to 32 bits and rendered as a dotted quad
(`socket.inet_ntoa(struct.pack("!I", val & 0xFFFFFFFF))`). -/
def int_to_ipv4 (val : Nat) : String :=
  if val = 0 then "0.0.0.0"
  else
    let m := val % 4294967296
    toString (m / 16777216) ++ "." ++ toString (m / 65536 % 256) ++ "."
      ++ toString (m / 256 % 256) ++ "." ++ toString (m % 256)

/-- Lower-case hex digit of a value below 16. -/
def hexChar (n : Nat) : Char :=
  if n < 10 then Char.ofNat (48 + n) else Char.ofNat (87 + n)

/-- Hex rendering of one 16-bit IPv6 group without leading zeros. -/
def hexGroup (n : Nat) : String :=
  let ds := [n / 4096 % 16, n / 256 % 16, n / 16 % 16, n % 16]
  let ds := ds.dropWhile (· = 0)
  if ds = [] then "0" else String.mk (ds.map hexChar)

/-- The `int_to_ipv6` function of `parser.py`. The zero case returns `"::"`
exactly as the source does. Modelled from the spec: the non-zero case calls
`socket.inet_ntop(AF_INET6, ...)`, an external C routine; spec section 4.2
says "IPv6 as colon-hex, using standard fixed-width network-address
formatting", modelled here as eight colon-separated hex groups (the RFC 5952
zero-run compression is not modelled; no claim inspects a non-zero IPv6
rendering). -/
def int_to_ipv6 (val : Nat) : String :=
  if val = 0 then "::"
  else
    let m := val % (2 ^ 128)
    String.intercalate ":"
      ((List.range 8).map (fun i => hexGroup (m / 2 ^ (16 * (7 - i)) % 65536)))

/-- First-match lookup in a string-keyed association list; models Python
`dict.get` on the decoded record's field map. -/
def dGet (d : List (String × Nat)) (k : String) : Option Nat :=
  match d with
  | [] => none
  | (k2, v) :: rest => if k2 = k then some v else dGet rest k

/-- Two-level defaulted lookup `data.get(k1, data.get(k2, 0))` as used by
`extract_flow_fields` for every aliased field. -/
def dGetD2 (d : List (String × Nat)) (k1 k2 : String) : Nat :=
  match dGet d k1 with
  | some v => v
  | none => (dGet d k2).getD 0

/-- The `extract_flow_fields` function of `parser.py`, on a record whose
`flow.data` is a dict of field name to unsigned integer value (which is what
the modelled IPFIX data-record decoder produces). The source's
`int(x or 0)` coercion is the identity on the `Nat` values produced by the
decoder (`0 or 0` is `0`), so it is not written out. -/
def extract_flow_fields (data : List (String × Nat)) : FlowRec :=
  let ip_ver := (dGet data "ipVersion").getD 4
  let sp := dGetD2 data "sourceTransportPort" "L4_SRC_PORT"
  let dp := dGetD2 data "destinationTransportPort" "L4_DST_PORT"
  let pr := dGetD2 data "protocolIdentifier" "PROTOCOL"
  let by2 := dGetD2 data "octetDeltaCount" "IN_BYTES"
  let pk := dGetD2 data "packetDeltaCount" "IN_PKTS"
  if ip_ver = 6 then
    { src_ip := int_to_ipv6 ((dGet data "sourceIPv6Address").getD 0),
      dst_ip := int_to_ipv6 ((dGet data "destinationIPv6Address").getD 0),
      src_port := sp, dst_port := dp, protocol := pr, bytes := by2, packets := pk }
  else
    { src_ip := int_to_ipv4 (dGetD2 data "sourceIPv4Address" "IPV4_SRC_ADDR"),
      dst_ip := int_to_ipv4 (dGetD2 data "destinationIPv4Address" "IPV4_DST_ADDR"),
      src_port := sp, dst_port := dp, protocol := pr, bytes := by2, packets := pk }

/-- IPFIX information element names for the field-type identifiers this
development uses, as the third-party library's registry resolves them.
Modelled from the spec: the registry itself is in the `netflow` library; the
names are the IANA IPFIX information element names the spec's scenarios use. -/
def fieldName (t : Nat) : String :=
  if t = 1 then "octetDeltaCount"
  else if t = 2 then "packetDeltaCount"
  else if t = 4 then "protocolIdentifier"
  else if t = 7 then "sourceTransportPort"
  else if t = 8 then "sourceIPv4Address"
  else if t = 11 then "destinationTransportPort"
  else if t = 12 then "destinationIPv4Address"
  else if t = 27 then "sourceIPv6Address"
  else if t = 28 then "destinationIPv6Address"
  else if t = 60 then "ipVersion"
  else "fieldType_" ++ toString t

/-- The per-version template cache `templates["ipfix"]`: a Python dict from
template id to the template's ordered (field-type, field-length) specifiers,
modelled as an association list in insertion order. -/
abbrev IpfixStore : Type := List (Nat × List (Nat × Nat))

/-- First-match lookup in a numeric-keyed association list; models Python
dict indexing on the template cache. -/
def dictLookup {α : Type} (d : List (Nat × α)) (k : Nat) : Option α :=
  match d with
  | [] => none
  | (k2, v) :: rest => if k2 = k then some v else dictLookup rest k

/-- Python `dict[k] = v` on an association list: the first entry with the key
is replaced in place (dicts keep insertion order on overwrite); a fresh key is
appended. -/
def dictUpsert {α : Type} (d : List (Nat × α)) (k : Nat) (v : α) : List (Nat × α) :=
  match d with
  | [] => [(k, v)]
  | (k2, v2) :: rest => if k2 = k then (k, v) :: rest else (k2, v2) :: dictUpsert rest k v

/-- Lift the cache to `Option`-valued entries, the shape a Python dict has
while it holds the library's `None` withdrawal markers. -/
def toOptStore (s : IpfixStore) : List (Nat × Option (List (Nat × Nat))) :=
  s.map (fun p => (p.1, some p.2))

/-- The `None`-deletion sweep of `_parse_ipfix` lines 121-123: every key
whose value is `None` is removed, the rest keep their values and order. -/
def sweepNone (l : List (Nat × Option (List (Nat × Nat)))) : IpfixStore :=
  l.filterMap (fun p => p.2.map (fun fs => (p.1, fs)))

/-- The template-set effect in `_parse_ipfix` lines 120-123:
`ipfix_templates.update(ipfix_set.templates)` followed by deletion of every
key whose value is `None` (the library marks a withdrawal — a zero-field
template record — by a `None` value). The cache is lifted to `Option` values,
all updates applied in record order, then the `None` entries swept out. -/
def applyTemplates (us : List (Nat × Option (List (Nat × Nat)))) (store : IpfixStore) :
    IpfixStore :=
  sweepNone (us.foldl (fun m u => dictUpsert m u.1 u.2) (toOptStore store))

/-- One template record's field specifiers: `count` specifiers, each
`[field-type:2][field-length:2]`, with a 4-byte enterprise number following
when the field-type's high bit is set (spec section 6). Returns the parsed
specifiers (enterprise bit cleared) and the remaining bytes, or `none` when
the bytes run out mid-specifier. -/
def parseFieldSpecs : Nat → List Nat → Option (List (Nat × Nat) × List Nat)
  | 0, bs => some ([], bs)
  | c + 1, t1 :: t0 :: l1 :: l0 :: rest =>
      let t := t1 * 256 + t0
      let l := l1 * 256 + l0
      if t ≥ 32768 then
        match rest with
        | _ :: _ :: _ :: _ :: rest2 =>
            (parseFieldSpecs c rest2).map (fun p => ((t - 32768, l) :: p.1, p.2))
        | _ => none
      else
        (parseFieldSpecs c rest).map (fun p => ((t, l) :: p.1, p.2))
  | _ + 1, _ => none

/-- Template records of a template set's payload:
`[template-id:2][field-count:2][specifiers]` repeated; a field count of zero
is a withdrawal and yields a `none` entry (the library's `None` marker).
Modelled from the spec: spec sections 4.3 and 6; fewer than four trailing
bytes are set padding and end the record walk; a truncated specifier area
fails the whole set. `fuel` bounds recursion and is called with the payload
length, which each record (at least 4 bytes) keeps ample. -/
def parseTemplateRecs : Nat → List Nat → Option (List (Nat × Option (List (Nat × Nat))))
  | 0, _ => some []
  | fuel + 1, t1 :: t0 :: c1 :: c0 :: rest =>
      let tid := t1 * 256 + t0
      let cnt := c1 * 256 + c0
      if cnt = 0 then
        (parseTemplateRecs fuel rest).map (fun us => (tid, none) :: us)
      else
        match parseFieldSpecs cnt rest with
        | some (fs, rest2) =>
            (parseTemplateRecs fuel rest2).map (fun us => (tid, some fs) :: us)
        | none => none
  | _ + 1, _ => some []

/-- Total byte length of one data record under a template: the sum of the
declared field lengths. -/
def recordLength (fs : List (Nat × Nat)) : Nat :=
  (fs.map Prod.snd).sum

/-- Decode one data record: each field takes its declared length of bytes,
big-endian, keyed by the field-type's registry name. -/
def splitRecord : List (Nat × Nat) → List Nat → List (String × Nat)
  | [], _ => []
  | (t, l) :: rest, bs => (fieldName t, beUint (bs.take l)) :: splitRecord rest (bs.drop l)

/-- Data records of a data set's payload: fixed-length records decoded while
enough bytes remain; a trailing remainder shorter than one record is padding.
Modelled from the spec: the record slicing lives in the `netflow` library;
spec section 4.2 fixes the per-field big-endian unsigned decode. `fuel` is
called with the payload length; every record is at least one byte because a
zero record length stops the walk. -/
def parseDataRecs : Nat → List (Nat × Nat) → List Nat → List (List (String × Nat))
  | 0, _, _ => []
  | fuel + 1, fs, bs =>
      let rl := recordLength fs
      if rl = 0 then []
      else if bs.length < rl then []
      else splitRecord fs (bs.take rl) :: parseDataRecs fuel fs (bs.drop rl)

/-- Outcome of decoding one IPFIX set (the library's `IPFIXSet` object as
`_parse_ipfix` consumes it): template updates, data records, or neither. -/
inductive SetResult where
  | templates (us : List (Nat × Option (List (Nat × Nat))))
  | dataRecords (rs : List (List (String × Nat)))
  | skipped
deriving Repr

/-- The exceptions `_parse_ipfix` catches around `IPFIXSet`:
`IPFIXTemplateNotRecognized` for a data set whose template id is not cached,
and the structural-decode class (`struct.error` and kin) for malformed bytes. -/
inductive SetErr where
  | templateNotRecognized
  | structError
deriving Repr, DecidableEq

/-- Decoding one set from its sliced bytes against the current template
cache. Modelled from the spec: `IPFIXSet` is library code; spec sections 4.3
and 6 fix the contract — set id 2 defines templates (id 3, options templates,
is a template set whose scope layout is not modelled and contributes no
updates here), ids of 256 and above are data referencing a cached template,
unknown references raise `IPFIXTemplateNotRecognized`, and other low ids are
neither template nor data. -/
def decodeSet (setData : List Nat) (store : IpfixStore) : Except SetErr SetResult :=
  if setData.length < 4 then .error .structError
  else if be2 setData 0 = 2 then
    match parseTemplateRecs (setData.drop 4).length (setData.drop 4) with
    | some us => .ok (.templates us)
    | none => .error .structError
  else if be2 setData 0 = 3 then .ok (.templates [])
  else if 256 ≤ be2 setData 0 then
    match dictLookup store (be2 setData 0) with
    | none => .error .templateNotRecognized
    | some fs =>
        .ok (.dataRecords (parseDataRecs (setData.drop 4).length fs (setData.drop 4)))
  else .ok .skipped

/-- Size of the fixed IPFIX packet header (`IPFIXHeader.size`): 2-byte
version, 2-byte total length, 4-byte export time, 4-byte sequence number,
4-byte observation domain id (spec section 6). -/
def IPFIXHeaderSize : Nat := 16

/-- The set walk of `_parse_ipfix` (lines 107-131): while the offset is below
both the header's declared length and the buffer length, read the 4-byte set
header, stop on a set length below 4, slice the set, advance the offset by
exactly the set length, and fold the set's outcome in — template updates
mutate the cache, data records are normalized and appended, every caught
exception skips just that set. `fuel` bounds the recursion and is called
with the buffer length; each iteration consumes at least 4 bytes of offset
below that length. -/
def ipfixWalk (data : List Nat) (hlen : Nat) :
    Nat → Nat → IpfixStore → List FlowRec × IpfixStore
  | 0, _, store => ([], store)
  | fuel + 1, off, store =>
    if off < hlen ∧ off < data.length then
      if off + 4 > data.length then ([], store)
      else if be2 data (off + 2) < 4 then ([], store)
      else
        match decodeSet (slice data off (be2 data (off + 2))) store with
        | .ok (.templates us) =>
            ipfixWalk data hlen fuel (off + be2 data (off + 2)) (applyTemplates us store)
        | .ok (.dataRecords rs) =>
            let rec2 := ipfixWalk data hlen fuel (off + be2 data (off + 2)) store
            (rs.map extract_flow_fields ++ rec2.1, rec2.2)
        | .ok .skipped => ipfixWalk data hlen fuel (off + be2 data (off + 2)) store
        | .error _ => ipfixWalk data hlen fuel (off + be2 data (off + 2)) store
    else ([], store)

/-- The `_parse_ipfix` function of `parser.py`: reject a payload shorter than
the fixed header, then walk the sets. The mutated template cache is returned
explicitly (the Python code mutates `templates["ipfix"]` in place). -/
def parse_ipfix (data : List Nat) (store : IpfixStore) : List FlowRec × IpfixStore :=
  if data.length < IPFIXHeaderSize then ([], store)
  else ipfixWalk data (be2 data 2) data.length IPFIXHeaderSize store

/-- The exception classes `_parse_netflow` catches around the third-party
`netflow.parse_packet`: `struct.error`, `ValueError` (including the library's
unknown-version error) and `KeyError` (including its template-miss error). -/
inductive LibErr where
  | structError
  | valueError
  | keyError
deriving Repr, DecidableEq

/-- One legacy (Family A) v5 record's field map. Modelled from the spec: the
fixed v5 record layout lives in the `netflow` library; spec section 2.3 of
Family A fixes "fixed-width records" decoded at hard-coded offsets, keyed by
the legacy integer-scheme names `extract_flow_fields` consumes. -/
def v5Record (bs : List Nat) : List (String × Nat) :=
  [("IPV4_SRC_ADDR", beUint (slice bs 0 4)),
   ("IPV4_DST_ADDR", beUint (slice bs 4 4)),
   ("IN_PKTS", beUint (slice bs 16 4)),
   ("IN_BYTES", beUint (slice bs 20 4)),
   ("L4_SRC_PORT", beUint (slice bs 32 2)),
   ("L4_DST_PORT", beUint (slice bs 34 2)),
   ("PROTOCOL", beUint (slice bs 38 1))]

/-- Modelled from the spec: the third-party `netflow.parse_packet` call that
`_parse_netflow` wraps is not repository code. Family A per spec section 4.3:
a fixed header declaring a record count followed by flat fixed-layout
records; a version the legacy family does not hard-code is a `ValueError`
class failure, a body too short for its own declared count a `struct.error`
class failure. Only the v5 shape is modelled concretely; every outcome is one
of the exception classes `_parse_netflow` catches, or a record list. -/
def familyADecode (data : List Nat) : Except LibErr (List (List (String × Nat))) :=
  let version := be2 data 0
  if version = 5 then
    if data.length < 24 then .error .structError
    else
      let count := be2 data 2
      if data.length < 24 + count * 48 then .error .structError
      else .ok ((List.range count).map (fun i => v5Record (slice data (24 + i * 48) 48)))
  else .error .valueError

/-- The `_parse_netflow` function of `parser.py`: every caught library
exception degrades to the empty record list. -/
def parse_netflow (data : List Nat) : List FlowRec :=
  match familyADecode data with
  | .ok flows => flows.map extract_flow_fields
  | .error _ => []

/-- The caller-supplied template cache `{"netflow": {}, "ipfix": {}}` that
the collector owns and threads through every parse call. -/
structure TemplatesDict where
  netflow : List (Nat × List (Nat × Nat))
  ipfix : IpfixStore
deriving Repr, DecidableEq

/-- The `parse_packet` entry point of `parser.py`: a payload shorter than 4
bytes is rejected, the 2-byte version discriminant dispatches version 10 to
the IPFIX path and everything else to the legacy path. The template dict is
returned explicitly in place of the source's in-place mutation; the function
is total, the embedding of "never raises for malformed input". -/
def parse_packet (data : List Nat) (templates : TemplatesDict) :
    List FlowRec × TemplatesDict :=
  if data.length < 4 then ([], templates)
  else if be2 data 0 = 10 then
    let r := parse_ipfix data templates.ipfix
    (r.1, { templates with ipfix := r.2 })
  else
    (parse_netflow data, templates)

/-! ### The Flow Listener (`collector.py`) -/

/-- The oversized-datagram ceiling `MAX_PACKET_SIZE` of `collector.py`. -/
def MAX_PACKET_SIZE : Nat := 65535

/-- The mutable fields of `NetFlowProtocol`: template cache, in-memory batch,
flush interval and last-flush time (modelled as integers), and the packet and
flow counters. -/
structure ListenerState where
  templates : TemplatesDict
  batch : List FlowRec
  batch_interval : Int
  last_flush : Int
  packets : Nat
  flows : Nat
deriving Repr, DecidableEq

/-- The log calls the modelled collector paths emit. -/
inductive LogEvent where
  | oversizedWarning (size : Nat)
deriving Repr, DecidableEq

/-- Result of one `datagram_received` call: the successor state, the log
events emitted, and the batches handed to `db.insert_netflow_batch`
(timestamp and records). -/
structure StepResult where
  state : ListenerState
  logs : List LogEvent
  dbWrites : List (Int × List FlowRec)
deriving Repr, DecidableEq

/-- The `_flush` method of `collector.py`: an empty batch returns without
touching `_last_flush`; otherwise the batch is swapped out and cleared, the
flush time recorded, and the copy written to storage. -/
def listenerFlush (ts : Int) (s : ListenerState) :
    ListenerState × List (Int × List FlowRec) :=
  if s.batch = [] then (s, [])
  else ({ s with batch := [], last_flush := ts }, [(ts, s.batch)])

/-- The `datagram_received` method of `collector.py`: an oversized datagram
is logged and dropped before any parse with no state mutation; otherwise the
packet counter is bumped, the payload parsed against the shared template
dict, a non-empty flow list appended to the batch, and a flush performed when
the elapsed time since the last flush has reached the interval. `now` stands
for the `time.time()` reads. -/
def datagram_received (data : List Nat) (now : Int) (s : ListenerState) : StepResult :=
  if data.length > MAX_PACKET_SIZE then
    { state := s, logs := [.oversizedWarning data.length], dbWrites := [] }
  else
    let s1 := { s with packets := s.packets + 1 }
    let r := parse_packet data s1.templates
    let s2 :=
      if r.1 = [] then { s1 with templates := r.2 }
      else
        { s1 with
          templates := r.2
          batch := s1.batch ++ r.1
          flows := s1.flows + r.1.length }
    if now - s2.last_flush ≥ s2.batch_interval then
      let f := listenerFlush now s2
      { state := f.1, logs := [], dbWrites := f.2 }
    else
      { state := s2, logs := [], dbWrites := [] }

/-! ### Concrete packets for the end-to-end scenarios -/

/-- Template set for the spec's end-to-end scenario: set id 2, length 32, one
template with id 256 and the six fields
sourceIPv4Address/4, destinationIPv4Address/4, sourceTransportPort/2,
destinationTransportPort/2, protocolIdentifier/1, octetDeltaCount/4. -/
def c1TemplateSet : List Nat :=
  [0, 2, 0, 32, 1, 0, 0, 6,
   0, 8, 0, 4, 0, 12, 0, 4, 0, 7, 0, 2, 0, 11, 0, 2, 0, 4, 0, 1, 0, 1, 0, 4]

/-- Data set for the scenario: set id 256, length 21, one record with values
(192.168.1.10, 8.8.8.8, 54321, 443, 6, 50000). -/
def c1DataSet : List Nat :=
  [1, 0, 0, 21, 192, 168, 1, 10, 8, 8, 8, 8, 212, 49, 1, 187, 6, 0, 0, 195, 80]

/-- An IPFIX packet header of the given total length: version 10, length,
zeroed export time, sequence number and observation domain. -/
def ipfixHeader (len : Nat) : List Nat :=
  [0, 10, len / 256, len % 256, 0, 0, 0, 0, 0, 0, 0, 0, 0, 0, 0, 0]

/-- The full Family-B scenario packet: header, template set, data set. -/
def c1Packet : List Nat := ipfixHeader 69 ++ c1TemplateSet ++ c1DataSet

/-- The scenario template's field specifiers as the cache stores them. -/
def c1Fields : List (Nat × Nat) := [(8, 4), (12, 4), (7, 2), (11, 2), (4, 1), (1, 4)]

/-- A packet carrying only the scenario's template set. -/
def c1TemplatePacket : List Nat := ipfixHeader 48 ++ c1TemplateSet

/-- A packet carrying only the scenario's data set for template 256. -/
def c1DataPacket : List Nat := ipfixHeader 37 ++ c1DataSet

/-- A packet carrying one template set whose single record withdraws
template 256: template id 256 with field count zero. -/
def c4WithdrawPacket : List Nat := ipfixHeader 24 ++ [0, 2, 0, 8, 1, 0, 0, 0]

/-- An empty template cache, as the collector initializes it. -/
def emptyTemplates : TemplatesDict := ⟨[], []⟩

/-- The listener state `NetFlowProtocol.__init__` builds (default
`batch_interval` 10, `_last_flush` taken as time zero). -/
def initListener : ListenerState :=
  { templates := emptyTemplates, batch := [], batch_interval := 10,
    last_flush := 0, packets := 0, flows := 0 }

/-- A listener state that has learned the scenario template and holds one
batched record, with the packet and flow counters at 5 and 7 — a concrete
mid-run state for the oversized-datagram scenario. -/
def c6State : ListenerState :=
  { templates := ⟨[], [(256, c1Fields)]⟩, batch := [extract_flow_fields []],
    batch_interval := 10, last_flush := 0, packets := 5, flows := 7 }

/-- A listener state whose batch holds 70000 records — far beyond any byte
or count threshold the spec could mean — one time unit after its last flush,
with a 10-unit flush interval. -/
def c10State : ListenerState :=
  { templates := emptyTemplates, batch := List.replicate 70000 (extract_flow_fields []),
    batch_interval := 10, last_flush := 0, packets := 0, flows := 70000 }

/-! ### Supporting lemmas -/

theorem slice_length (data : List Nat) (off l : Nat) :
    (slice data off l).length = min l (data.length - off) := by
  simp [slice]

theorem be2_slice_zero (data : List Nat) (off sl : Nat) (h : 2 ≤ sl) :
    be2 (slice data off sl) 0 = be2 data off := by
  simp [be2, slice, List.take_take, Nat.min_eq_left h]

theorem dictLookup_upsert_self {α : Type} :
    ∀ (d : List (Nat × α)) (k : Nat) (v : α),
      dictLookup (dictUpsert d k v) k = some v
  | [], k, v => by simp [dictUpsert, dictLookup]
  | (k2, v2) :: rest, k, v => by
      by_cases h : k2 = k
      · simp [dictUpsert, h, dictLookup]
      · simp [dictUpsert, h, dictLookup, dictLookup_upsert_self rest k v]

theorem dictUpsert_of_lookup_eq {α : Type} :
    ∀ (d : List (Nat × α)) (k : Nat) (v : α),
      dictLookup d k = some v → dictUpsert d k v = d
  | [], k, v => by simp [dictLookup]
  | (k2, v2) :: rest, k, v => by
      by_cases h : k2 = k
      · intro hl
        simp [dictLookup, h] at hl
        simp [dictUpsert, h, hl]
      · intro hl
        simp [dictLookup, h] at hl
        simp [dictUpsert, h, dictUpsert_of_lookup_eq rest k v hl]

theorem dictLookup_eq_none_of_not_mem {α : Type} :
    ∀ (d : List (Nat × α)) (k : Nat), k ∉ d.map Prod.fst → dictLookup d k = none
  | [], _, _ => rfl
  | (k2, v2) :: rest, k, h => by
      simp only [List.map_cons, List.mem_cons] at h
      push_neg at h
      have h1 : ¬ k2 = k := fun hh => h.1 hh.symm
      simp [dictLookup, h1, dictLookup_eq_none_of_not_mem rest k h.2]

theorem sweepNone_toOptStore : ∀ (s : IpfixStore), sweepNone (toOptStore s) = s
  | [] => rfl
  | (k, fs) :: rest => by
      have ih := sweepNone_toOptStore rest
      simp only [sweepNone, toOptStore, List.map_cons, List.filterMap_cons] at *
      simpa using ih

theorem dictLookup_toOptStore (s : IpfixStore) (k : Nat) :
    dictLookup (toOptStore s) k = (dictLookup s k).map some := by
  induction s with
  | nil => rfl
  | cons p rest ih =>
      obtain ⟨k2, fs⟩ := p
      by_cases h : k2 = k
      · simp [toOptStore, dictLookup, h]
      · simpa [toOptStore, dictLookup, h] using ih

theorem dictLookup_sweepNone_of_some :
    ∀ (l : List (Nat × Option (List (Nat × Nat)))) (k : Nat) (fs : List (Nat × Nat)),
      dictLookup l k = some (some fs) → dictLookup (sweepNone l) k = some fs
  | [], _, _ => by simp [dictLookup]
  | (k2, v2) :: rest, k, fs => by
      intro hl
      by_cases h : k2 = k
      · simp [dictLookup, h] at hl
        simp [sweepNone, hl, dictLookup, h]
      · simp [dictLookup, h] at hl
        cases v2 with
        | none => simpa [sweepNone] using dictLookup_sweepNone_of_some rest k fs hl
        | some w =>
            simpa [sweepNone, dictLookup, h] using dictLookup_sweepNone_of_some rest k fs hl

theorem applyTemplates_single (s : IpfixStore) (u : Nat × Option (List (Nat × Nat))) :
    applyTemplates [u] s = sweepNone (dictUpsert (toOptStore s) u.1 u.2) := by
  simp [applyTemplates]

theorem toOptStore_cons (k : Nat) (fs : List (Nat × Nat)) (rest : IpfixStore) :
    toOptStore ((k, fs) :: rest) = (k, some fs) :: toOptStore rest := rfl

theorem sweepNone_cons_none (k : Nat) (l : List (Nat × Option (List (Nat × Nat)))) :
    sweepNone ((k, none) :: l) = sweepNone l := by
  simp only [sweepNone, List.filterMap_cons, Option.map_none']

theorem sweepNone_cons_some (k : Nat) (fs : List (Nat × Nat))
    (l : List (Nat × Option (List (Nat × Nat)))) :
    sweepNone ((k, some fs) :: l) = (k, fs) :: sweepNone l := by
  simp only [sweepNone, List.filterMap_cons, Option.map_some']

theorem lookup_applyTemplates_withdraw :
    ∀ (s : IpfixStore) (k : Nat), (s.map Prod.fst).Nodup →
      dictLookup (applyTemplates [(k, none)] s) k = none
  | [], _, _ => rfl
  | (k2, fs) :: rest, k, hnd => by
      rw [List.map_cons, List.nodup_cons] at hnd
      by_cases h : k2 = k
      · subst h
        have hstep : applyTemplates [(k2, none)] ((k2, fs) :: rest) = rest := by
          rw [applyTemplates_single, toOptStore_cons]
          simp only [dictUpsert, eq_self_iff_true, ite_true]
          rw [sweepNone_cons_none, sweepNone_toOptStore]
        rw [hstep]
        exact dictLookup_eq_none_of_not_mem rest k2 hnd.1
      · have hstep : applyTemplates [(k, none)] ((k2, fs) :: rest) =
            (k2, fs) :: applyTemplates [(k, none)] rest := by
          rw [applyTemplates_single, applyTemplates_single, toOptStore_cons]
          simp only [dictUpsert, if_neg h]
          rw [sweepNone_cons_some]
        rw [hstep]
        simp only [dictLookup, if_neg h]
        exact lookup_applyTemplates_withdraw rest k hnd.2

theorem applyTemplates_single_idem (s : IpfixStore) (k : Nat) (fs : List (Nat × Nat)) :
    applyTemplates [(k, some fs)] (applyTemplates [(k, some fs)] s) =
      applyTemplates [(k, some fs)] s := by
  have hlk : dictLookup (applyTemplates [(k, some fs)] s) k = some fs := by
    rw [applyTemplates_single]
    exact dictLookup_sweepNone_of_some _ _ _ (dictLookup_upsert_self _ _ _)
  rw [applyTemplates_single (applyTemplates [(k, some fs)] s) (k, some fs)]
  have h2 : dictLookup (toOptStore (applyTemplates [(k, some fs)] s)) k =
      some (some fs) := by
    rw [dictLookup_toOptStore, hlk]; rfl
  rw [dictUpsert_of_lookup_eq _ _ _ h2, sweepNone_toOptStore]

theorem ipfixWalk_succ (data : List Nat) (hlen fuel off : Nat) (store : IpfixStore) :
    ipfixWalk data hlen (fuel + 1) off store =
      (if off < hlen ∧ off < data.length then
        if off + 4 > data.length then ([], store)
        else if be2 data (off + 2) < 4 then ([], store)
        else
          match decodeSet (slice data off (be2 data (off + 2))) store with
          | .ok (.templates us) =>
              ipfixWalk data hlen fuel (off + be2 data (off + 2)) (applyTemplates us store)
          | .ok (.dataRecords rs) =>
              (rs.map extract_flow_fields ++
                 (ipfixWalk data hlen fuel (off + be2 data (off + 2)) store).1,
               (ipfixWalk data hlen fuel (off + be2 data (off + 2)) store).2)
          | .ok .skipped => ipfixWalk data hlen fuel (off + be2 data (off + 2)) store
          | .error _ => ipfixWalk data hlen fuel (off + be2 data (off + 2)) store
      else ([], store)) := rfl

theorem ipfixWalk_stop (data : List Nat) (hlen fuel off : Nat) (store : IpfixStore)
    (h : ¬ (off < hlen ∧ off < data.length)) :
    ipfixWalk data hlen fuel off store = ([], store) := by
  cases fuel with
  | zero => rfl
  | succ n => rw [ipfixWalk_succ, if_neg h]

theorem decodeSet_unknown_template (data : List Nat) (off : Nat) (store : IpfixStore)
    (h2 : off + 4 ≤ data.length) (hsid : 256 ≤ be2 data off)
    (hsl : 4 ≤ be2 data (off + 2))
    (hlook : dictLookup store (be2 data off) = none) :
    decodeSet (slice data off (be2 data (off + 2))) store =
      .error .templateNotRecognized := by
  have hlen : ¬ (slice data off (be2 data (off + 2))).length < 4 := by
    rw [slice_length]; omega
  have hs : be2 (slice data off (be2 data (off + 2))) 0 = be2 data off :=
    be2_slice_zero _ _ _ (by omega)
  unfold decodeSet
  rw [if_neg hlen, hs, if_neg (by omega), if_neg (by omega), if_pos hsid, hlook]

theorem datagram_received_no_flush (data : List Nat) (now : Int) (s : ListenerState)
    (ho : ¬ data.length > MAX_PACKET_SIZE)
    (h : ¬ now - s.last_flush ≥ s.batch_interval) :
    datagram_received data now s =
      { state := { s with
          packets := s.packets + 1
          templates := (parse_packet data s.templates).2
          batch := s.batch ++ (parse_packet data s.templates).1
          flows := s.flows + (parse_packet data s.templates).1.length },
        logs := [], dbWrites := [] } := by
  by_cases hf : (parse_packet data s.templates).1 = [] <;>
    simp [datagram_received, ho, h, hf]

/-! ### Claims -/

/-- C1: a Family-B packet carrying one template set (template id 256 with
fields sourceIPv4Address/4B, destinationIPv4Address/4B,
sourceTransportPort/2B, destinationTransportPort/2B, protocolIdentifier/1B,
octetDeltaCount/4B) followed by one data set for that template with values
(192.168.1.10, 8.8.8.8, 54321, 443, 6, 50000) parses to exactly one flow
dict with src_ip "192.168.1.10", dst_ip "8.8.8.8", src_port 54321, dst_port
443, protocol 6, bytes 50000 and packets 0 (the default for the omitted
packet counter). -/
theorem c1_end_to_end :
    (parse_packet c1Packet emptyTemplates).1 =
      [{ src_ip := "192.168.1.10", dst_ip := "8.8.8.8", src_port := 54321,
         dst_port := 443, protocol := 6, bytes := 50000, packets := 0 }] := by
  decide

/-- C5: on each iteration of the Family-B set walk (offset within the
declared body and a whole 4-byte set header available), a set length below 4
stops the walk, returning only the records decoded so far and leaving the
template cache as it stands; otherwise the walk advances the offset by
exactly that set length — the rest of the packet is parsed from
`off + set_length`, never less, whatever the set decoded to. -/
theorem c5_set_walk_advances (data : List Nat) (hlen fuel off : Nat)
    (store : IpfixStore) (h1 : off < hlen) (h2 : off + 4 ≤ data.length) :
    (be2 data (off + 2) < 4 →
      ipfixWalk data hlen (fuel + 1) off store = ([], store)) ∧
    (4 ≤ be2 data (off + 2) →
      ∃ fl1 store1,
        ipfixWalk data hlen (fuel + 1) off store =
          (fl1 ++ (ipfixWalk data hlen fuel (off + be2 data (off + 2)) store1).1,
           (ipfixWalk data hlen fuel (off + be2 data (off + 2)) store1).2)) := by
  have hoff : off < data.length := by omega
  constructor
  · intro hsl
    rw [ipfixWalk_succ, if_pos ⟨h1, hoff⟩, if_neg (by omega), if_pos hsl]
  · intro hsl
    rw [ipfixWalk_succ, if_pos ⟨h1, hoff⟩, if_neg (by omega), if_neg (by omega)]
    cases hd : decodeSet (slice data off (be2 data (off + 2))) store with
    | ok res =>
      cases res with
      | templates us => exact ⟨[], applyTemplates us store, by simp⟩
      | dataRecords rs => exact ⟨rs.map extract_flow_fields, store, rfl⟩
      | skipped => exact ⟨[], store, by simp⟩
    | error e => exact ⟨[], store, by simp⟩

/-- Witness for C5 at a concrete packet whose single set declares length 2:
the walk stops at once with no records and an untouched cache. -/
theorem c5_set_walk_advances_witness :
    ipfixWalk (ipfixHeader 20 ++ [0, 2, 0, 2]) 20 5 16 [] = ([], []) := by
  have h := (c5_set_walk_advances (ipfixHeader 20 ++ [0, 2, 0, 2]) 20 4 16 []
    (by decide) (by decide)).1
  exact h (by decide)

/-- C2: a data set (set id at least 256) whose template id is absent from
the template cache contributes zero flow records and leaves the cache
untouched, and the walk continues at exactly `off + set_length` with the
same cache — so a following well-formed set in the same packet is decoded
exactly as it would have been, and the unknown-template set neither aborts
the packet nor raises. -/
theorem c2_unknown_template_skipped (data : List Nat) (hlen fuel off : Nat)
    (store : IpfixStore) (h1 : off < hlen) (h2 : off + 4 ≤ data.length)
    (hsid : 256 ≤ be2 data off) (hsl : 4 ≤ be2 data (off + 2))
    (hlook : dictLookup store (be2 data off) = none) :
    ipfixWalk data hlen (fuel + 1) off store =
      ipfixWalk data hlen fuel (off + be2 data (off + 2)) store := by
  have hoff : off < data.length := by omega
  rw [ipfixWalk_succ, if_pos ⟨h1, hoff⟩, if_neg (by omega), if_neg (by omega),
    decodeSet_unknown_template data off store h2 hsid hsl hlook]

/-- Witness for C2: a packet whose body is a data set for the unknown
template 999 followed by the known-template data set of the end-to-end
scenario; the unknown set reduces to a plain offset advance, after which the
known set still decodes to its one record. -/
theorem c2_unknown_template_skipped_witness :
    ipfixWalk (ipfixHeader 49 ++ [3, 231, 0, 12, 0, 0, 0, 0, 0, 0, 0, 0] ++ c1DataSet)
        49 33 16 [(256, [(8, 4), (12, 4), (7, 2), (11, 2), (4, 1), (1, 4)])] =
      ipfixWalk (ipfixHeader 49 ++ [3, 231, 0, 12, 0, 0, 0, 0, 0, 0, 0, 0] ++ c1DataSet)
        49 32 28 [(256, [(8, 4), (12, 4), (7, 2), (11, 2), (4, 1), (1, 4)])] ∧
    (ipfixWalk (ipfixHeader 49 ++ [3, 231, 0, 12, 0, 0, 0, 0, 0, 0, 0, 0] ++ c1DataSet)
        49 32 28 [(256, [(8, 4), (12, 4), (7, 2), (11, 2), (4, 1), (1, 4)])]).1 =
      [{ src_ip := "192.168.1.10", dst_ip := "8.8.8.8", src_port := 54321,
         dst_port := 443, protocol := 6, bytes := 50000, packets := 0 }] := by
  constructor
  · exact c2_unknown_template_skipped _ 49 32 16 _ (by decide) (by decide)
      (by decide) (by decide) (by decide)
  · decide

/-- Unfolding of a parse of the template-only scenario packet against any
template dict: no flows, and the cache gains template 256. -/
theorem parse_c1TemplatePacket (t : TemplatesDict) :
    parse_packet c1TemplatePacket t =
      ([], { t with ipfix := applyTemplates [(256, some c1Fields)] t.ipfix }) := rfl

/-- Unfolding of a parse of the withdrawal packet against any template dict:
no flows, and the withdrawal update is applied to the cache. -/
theorem parse_c4WithdrawPacket (t : TemplatesDict) :
    parse_packet c4WithdrawPacket t =
      ([], { t with ipfix := applyTemplates [(256, none)] t.ipfix }) := rfl

/-- C3: `parse_packet` is a total function of the byte buffer and template
dict — in this embedding every malformed-input branch is an explicit value,
the catch-all of the source's exception handling, so no input raises — and a
payload shorter than the fixed packet header is rejected as a whole: fewer
than 4 bytes (the version read), or a version-10 payload shorter than the
16-byte IPFIX header, or a Family-A v5 payload shorter than its 24-byte
header, all yield the empty record list and leave the template dict
untouched. -/
theorem c3_short_input_rejected (data : List Nat) (t : TemplatesDict)
    (h : data.length < 4 ∨ (be2 data 0 = 10 ∧ data.length < 16) ∨
      (be2 data 0 = 5 ∧ data.length < 24)) :
    parse_packet data t = ([], t) := by
  rcases h with h | ⟨h10, hlen⟩ | ⟨h5, hlen⟩
  · simp [parse_packet, h]
  · by_cases h4 : data.length < 4
    · simp [parse_packet, h4]
    · simp [parse_packet, h4, h10, parse_ipfix, IPFIXHeaderSize, hlen]
  · by_cases h4 : data.length < 4
    · simp [parse_packet, h4]
    · have h10 : ¬ be2 data 0 = 10 := by simp [h5]
      simp [parse_packet, h4, h10, parse_netflow, familyADecode, h5, hlen]

/-- Witness for C3 at a 5-byte version-10 payload. -/
theorem c3_short_input_rejected_witness :
    parse_packet [0, 10, 0, 0, 0] emptyTemplates = ([], emptyTemplates) :=
  c3_short_input_rejected [0, 10, 0, 0, 0] emptyTemplates
    (Or.inr (Or.inl ⟨by decide, by decide⟩))

/-- C4: a template withdrawal (a template record with zero-length body) for
template 256 removes it from the cache — whatever duplicate-free cache the
listener had accumulated — and a subsequent packet whose data set references
id 256 yields zero flow records and leaves the cache as the withdrawal left
it. -/
theorem c4_withdrawal_removes_template (t : TemplatesDict)
    (hnd : (t.ipfix.map Prod.fst).Nodup) :
    dictLookup (parse_packet c4WithdrawPacket t).2.ipfix 256 = none ∧
    parse_packet c1DataPacket (parse_packet c4WithdrawPacket t).2 =
      ([], (parse_packet c4WithdrawPacket t).2) := by
  rw [parse_c4WithdrawPacket]
  have hlk : dictLookup (applyTemplates [(256, none)] t.ipfix) 256 = none :=
    lookup_applyTemplates_withdraw t.ipfix 256 hnd
  refine ⟨hlk, ?_⟩
  have hr : parse_ipfix c1DataPacket (applyTemplates [(256, none)] t.ipfix) =
      ([], applyTemplates [(256, none)] t.ipfix) := by
    show ipfixWalk c1DataPacket 37 (36 + 1) 16 (applyTemplates [(256, none)] t.ipfix) =
      ([], applyTemplates [(256, none)] t.ipfix)
    rw [ipfixWalk_succ, if_pos (by decide), if_neg (by decide), if_neg (by decide),
      decodeSet_unknown_template c1DataPacket 16 (applyTemplates [(256, none)] t.ipfix)
        (by decide) (by decide) (by decide) hlk]
    exact ipfixWalk_stop _ _ _ _ _ (by decide)
  have hu : parse_packet c1DataPacket
      { t with ipfix := applyTemplates [(256, none)] t.ipfix } =
      ((parse_ipfix c1DataPacket (applyTemplates [(256, none)] t.ipfix)).1,
       { t with ipfix :=
          (parse_ipfix c1DataPacket (applyTemplates [(256, none)] t.ipfix)).2 }) := rfl
  rw [hu, hr]

/-- Witness for C4 at a cache that has learned the scenario template. -/
theorem c4_withdrawal_removes_template_witness :
    dictLookup
      (parse_packet c4WithdrawPacket ⟨[], [(256, c1Fields)]⟩).2.ipfix 256 = none ∧
    parse_packet c1DataPacket (parse_packet c4WithdrawPacket ⟨[], [(256, c1Fields)]⟩).2 =
      ([], (parse_packet c4WithdrawPacket ⟨[], [(256, c1Fields)]⟩).2) :=
  c4_withdrawal_removes_template ⟨[], [(256, c1Fields)]⟩ (by decide)

/-- C9: upserting the same template definition twice, by parsing the same
template packet in two consecutive packets, leaves the template cache in
exactly the state one upsert leaves it in, and a data packet referencing
that template decodes to identical flow records against either cache;
overwriting the existing entry is a total operation, never an error. -/
theorem c9_template_upsert_idempotent (t : TemplatesDict) :
    (parse_packet c1TemplatePacket (parse_packet c1TemplatePacket t).2).2 =
      (parse_packet c1TemplatePacket t).2 ∧
    (parse_packet c1DataPacket
        (parse_packet c1TemplatePacket (parse_packet c1TemplatePacket t).2).2).1 =
      (parse_packet c1DataPacket (parse_packet c1TemplatePacket t).2).1 := by
  simp only [parse_c1TemplatePacket]
  rw [applyTemplates_single_idem]
  exact ⟨rfl, rfl⟩

/-- C7: normalization never fails on a record whose template omitted fields —
`extract_flow_fields` is total — and every omitted field takes its documented
zero default. For the addresses this covers every record: whenever the
effective ip version (`data.get("ipVersion", 4)`) is not 6 — the flag absent
or explicitly non-6 — an absent IPv4 address (modern name and legacy alias
both missing) renders as "0.0.0.0", and when the version flag is 6 an absent
IPv6 address renders as "::"; absent ports, protocol, byte and packet
counters default to 0. -/
theorem c7_missing_fields_default (d : List (String × Nat)) :
    ((dGet d "ipVersion").getD 4 ≠ 6 → dGet d "sourceIPv4Address" = none →
      dGet d "IPV4_SRC_ADDR" = none → (extract_flow_fields d).src_ip = "0.0.0.0") ∧
    ((dGet d "ipVersion").getD 4 ≠ 6 → dGet d "destinationIPv4Address" = none →
      dGet d "IPV4_DST_ADDR" = none → (extract_flow_fields d).dst_ip = "0.0.0.0") ∧
    ((dGet d "ipVersion").getD 4 = 6 → dGet d "sourceIPv6Address" = none →
      (extract_flow_fields d).src_ip = "::") ∧
    ((dGet d "ipVersion").getD 4 = 6 → dGet d "destinationIPv6Address" = none →
      (extract_flow_fields d).dst_ip = "::") ∧
    (dGet d "sourceTransportPort" = none → dGet d "L4_SRC_PORT" = none →
      (extract_flow_fields d).src_port = 0) ∧
    (dGet d "destinationTransportPort" = none → dGet d "L4_DST_PORT" = none →
      (extract_flow_fields d).dst_port = 0) ∧
    (dGet d "protocolIdentifier" = none → dGet d "PROTOCOL" = none →
      (extract_flow_fields d).protocol = 0) ∧
    (dGet d "octetDeltaCount" = none → dGet d "IN_BYTES" = none →
      (extract_flow_fields d).bytes = 0) ∧
    (dGet d "packetDeltaCount" = none → dGet d "IN_PKTS" = none →
      (extract_flow_fields d).packets = 0) := by
  refine ⟨?_, ?_, ?_, ?_, ?_, ?_, ?_, ?_, ?_⟩ <;> intro h1 h2
  · intro h3
    simp [extract_flow_fields, h1, h2, h3, dGetD2, int_to_ipv4]
  · intro h3
    simp [extract_flow_fields, h1, h2, h3, dGetD2, int_to_ipv4]
  · simp [extract_flow_fields, h1, h2, int_to_ipv6]
  · simp [extract_flow_fields, h1, h2, int_to_ipv6]
  all_goals
    simp only [extract_flow_fields]
    split <;> simp [dGetD2, h1, h2]

/-- Witness for C7 at the empty field map (IPv4 branch by default) and at a
map holding only the explicit version flag 6 (IPv6 branch). -/
theorem c7_missing_fields_default_witness :
    (extract_flow_fields []).src_ip = "0.0.0.0" ∧
    (extract_flow_fields []).dst_ip = "0.0.0.0" ∧
    (extract_flow_fields [("ipVersion", 6)]).src_ip = "::" ∧
    (extract_flow_fields [("ipVersion", 6)]).dst_ip = "::" ∧
    (extract_flow_fields []).src_port = 0 ∧
    (extract_flow_fields []).dst_port = 0 ∧
    (extract_flow_fields []).protocol = 0 ∧
    (extract_flow_fields []).bytes = 0 ∧
    (extract_flow_fields []).packets = 0 := by
  obtain ⟨a1, a2, _, _, a5, a6, a7, a8, a9⟩ := c7_missing_fields_default []
  obtain ⟨_, _, b3, b4, _, _, _, _, _⟩ :=
    c7_missing_fields_default [("ipVersion", 6)]
  exact ⟨a1 (by decide) rfl rfl, a2 (by decide) rfl rfl, b3 rfl rfl, b4 rfl rfl,
    a5 rfl rfl, a6 rfl rfl, a7 rfl rfl, a8 rfl rfl, a9 rfl rfl⟩

/-- C8: for each normalized numeric field, lookup tries the modern IPFIX
identifier first — when it is present its value is taken even if the legacy
alias is also present — falls back to the legacy alias only when the modern
name is absent, and defaults to zero only when both are absent. -/
theorem c8_modern_alias_priority (d : List (String × Nat)) (v : Nat) :
    (dGet d "sourceTransportPort" = some v → (extract_flow_fields d).src_port = v) ∧
    (dGet d "sourceTransportPort" = none → dGet d "L4_SRC_PORT" = some v →
      (extract_flow_fields d).src_port = v) ∧
    (dGet d "destinationTransportPort" = some v →
      (extract_flow_fields d).dst_port = v) ∧
    (dGet d "destinationTransportPort" = none → dGet d "L4_DST_PORT" = some v →
      (extract_flow_fields d).dst_port = v) ∧
    (dGet d "protocolIdentifier" = some v → (extract_flow_fields d).protocol = v) ∧
    (dGet d "protocolIdentifier" = none → dGet d "PROTOCOL" = some v →
      (extract_flow_fields d).protocol = v) ∧
    (dGet d "octetDeltaCount" = some v → (extract_flow_fields d).bytes = v) ∧
    (dGet d "octetDeltaCount" = none → dGet d "IN_BYTES" = some v →
      (extract_flow_fields d).bytes = v) ∧
    (dGet d "packetDeltaCount" = some v → (extract_flow_fields d).packets = v) ∧
    (dGet d "packetDeltaCount" = none → dGet d "IN_PKTS" = some v →
      (extract_flow_fields d).packets = v) := by
  refine ⟨?_, ?_, ?_, ?_, ?_, ?_, ?_, ?_, ?_, ?_⟩
  all_goals intro h1
  case refine_1 =>
    simp only [extract_flow_fields]
    split <;> simp [dGetD2, h1]
  case refine_3 =>
    simp only [extract_flow_fields]
    split <;> simp [dGetD2, h1]
  case refine_5 =>
    simp only [extract_flow_fields]
    split <;> simp [dGetD2, h1]
  case refine_7 =>
    simp only [extract_flow_fields]
    split <;> simp [dGetD2, h1]
  case refine_9 =>
    simp only [extract_flow_fields]
    split <;> simp [dGetD2, h1]
  all_goals intro h2
  all_goals simp only [extract_flow_fields]
  all_goals split <;> simp [dGetD2, h1, h2]

/-- Witness for C8: with both sourceTransportPort and L4_SRC_PORT present the
modern value 7 wins; with only the legacy alias present its value 9 is used;
the same for octetDeltaCount over IN_BYTES. -/
theorem c8_modern_alias_priority_witness :
    (extract_flow_fields
      [("sourceTransportPort", 7), ("L4_SRC_PORT", 9)]).src_port = 7 ∧
    (extract_flow_fields [("L4_SRC_PORT", 9)]).src_port = 9 ∧
    (extract_flow_fields
      [("octetDeltaCount", 50000), ("IN_BYTES", 1)]).bytes = 50000 ∧
    (extract_flow_fields [("IN_BYTES", 500)]).bytes = 500 := by
  obtain ⟨a1, _, _, _, _, _, _, _, _, _⟩ :=
    c8_modern_alias_priority [("sourceTransportPort", 7), ("L4_SRC_PORT", 9)] 7
  obtain ⟨_, b2, _, _, _, _, _, _, _, _⟩ :=
    c8_modern_alias_priority [("L4_SRC_PORT", 9)] 9
  obtain ⟨_, _, _, _, _, _, c7a, _, _, _⟩ :=
    c8_modern_alias_priority [("octetDeltaCount", 50000), ("IN_BYTES", 1)] 50000
  obtain ⟨_, _, _, _, _, _, _, d8, _, _⟩ :=
    c8_modern_alias_priority [("IN_BYTES", 500)] 500
  exact ⟨a1 rfl, b2 rfl rfl, c7a rfl, d8 rfl rfl⟩

/-- C6, counterexample: receiving a 65536-byte datagram in a concrete mid-run
listener state (packet counter 5, flow counter 7, one batched record, one
learned template) returns the state entirely unchanged — in particular the
packet counter still reads 5 and no other counter exists to record the drop —
so the drop is logged but not counted anywhere, contrary to the claim that
the drop mutates a drop-accounting field. -/
theorem c6_drop_is_not_counted :
    datagram_received (List.replicate 65536 0) 3 c6State =
      { state := c6State, logs := [LogEvent.oversizedWarning 65536],
        dbWrites := [] } ∧
    (datagram_received (List.replicate 65536 0) 3 c6State).state.packets = 5 := by
  have h : (List.replicate 65536 (0 : Nat)).length > MAX_PACKET_SIZE := by
    rw [List.length_replicate]
    decide
  constructor
  · unfold datagram_received
    rw [if_pos h, List.length_replicate]
  · unfold datagram_received
    rw [if_pos h]
    rfl

/-- C6, amended: a datagram strictly larger than 65535 bytes is dropped
before any parse or decode attempt, a warning is logged, and the listener
state — template store, batch, and every counter — is left entirely
unchanged; no drop counter exists, so the drop is not counted. -/
theorem c6_oversized_drop_leaves_state (data : List Nat) (now : Int)
    (s : ListenerState) (h : data.length > MAX_PACKET_SIZE) :
    datagram_received data now s =
      { state := s, logs := [LogEvent.oversizedWarning data.length],
        dbWrites := [] } := by
  unfold datagram_received
  rw [if_pos h]

/-- Witness for the amended C6 at a fresh listener and a 65536-byte datagram. -/
theorem c6_oversized_drop_leaves_state_witness :
    (List.replicate 65536 (0 : Nat)).length > MAX_PACKET_SIZE ∧
    datagram_received (List.replicate 65536 0) 0 initListener =
      { state := initListener, logs := [LogEvent.oversizedWarning 65536],
        dbWrites := [] } := by
  have h : (List.replicate 65536 (0 : Nat)).length > MAX_PACKET_SIZE := by
    rw [List.length_replicate]
    decide
  refine ⟨h, ?_⟩
  rw [c6_oversized_drop_leaves_state (List.replicate 65536 0) 0 initListener h,
    List.length_replicate]

/-- C10, counterexample: a listener whose batch already holds 70000 records —
beyond any size or byte threshold — receives a datagram one time unit after
the last flush (interval 10): no write to storage happens and the batch stays
in memory, so crossing a batch-size threshold does not trigger a flush ahead
of the timer. -/
theorem c10_big_batch_no_flush :
    c10State.batch.length = 70000 ∧
    (1 : Int) - c10State.last_flush < c10State.batch_interval ∧
    (datagram_received [] 1 c10State).dbWrites = [] ∧
    (datagram_received [] 1 c10State).state.batch = c10State.batch := by
  have ho : ¬ ([] : List Nat).length > MAX_PACKET_SIZE := by decide
  have h : ¬ (1 : Int) - c10State.last_flush ≥ c10State.batch_interval := by decide
  rw [datagram_received_no_flush [] 1 c10State ho h]
  refine ⟨?_, by decide, rfl, ?_⟩
  · show (List.replicate 70000 (extract_flow_fields [])).length = 70000
    rw [List.length_replicate]
  · show c10State.batch ++ (parse_packet [] c10State.templates).1 = c10State.batch
    simp [parse_packet]

/-- C10, amended: the flush in `datagram_received` is purely time-triggered —
whenever the elapsed time since the last flush is below the batch interval,
no batch is written to storage, whatever the accumulated batch size; size-
or byte-threshold flushes do not exist (the other flush triggers are the
periodic timer task and the final flush on connection loss). -/
theorem c10_flush_is_time_triggered_only (data : List Nat) (now : Int)
    (s : ListenerState) (h : now - s.last_flush < s.batch_interval) :
    (datagram_received data now s).dbWrites = [] := by
  by_cases ho : data.length > MAX_PACKET_SIZE
  · unfold datagram_received
    rw [if_pos ho]
  · rw [datagram_received_no_flush data now s ho (not_le.mpr h)]

/-- Witness for the amended C10 at the 70000-record batch state. -/
theorem c10_flush_is_time_triggered_only_witness :
    (1 : Int) - c10State.last_flush < c10State.batch_interval ∧
    (datagram_received [0, 5] 1 c10State).dbWrites = [] := by
  have h : (1 : Int) - c10State.last_flush < c10State.batch_interval := by decide
  exact ⟨h, c10_flush_is_time_triggered_only [0, 5] 1 c10State h⟩

end UnifiMonitor
